import Mathlib

/-!
Shallow embedding of the BargainFHE contract (Solidity, fhevm-based
two-party bargaining protocol).  Addresses, bytes32 session ids, uint256
prices, ciphertext handles (euint32) and byte strings are all modelled as
`Nat`; the zero address is the "unset" sentinel.  The FHE boundary
(ingestion, validity predicate, decryption-proof checking, abi decoding)
and the session-id derivation (keccak over sender and block time) are an
abstract environment `FHEEnv` of pure functions, as the contract only
observes their results.  Solidity `require` failures revert the whole
call; operations therefore return `Except Err`, and `execOp` keeps the
pre-state with no events on any error.
-/

namespace BargainFHE

structure Session where
  buyer : Nat
  seller : Nat
  encryptedBuyerPrice : Nat
  encryptedSellerPrice : Nat
  publicBuyerPrice : Nat
  publicSellerPrice : Nat
  buyerRevealed : Bool
  sellerRevealed : Bool
  dealMatched : Bool
  timestamp : Nat
deriving DecidableEq, Repr

/-- Solidity mapping default: every field zero / false. -/
def defaultSession : Session :=
  { buyer := 0, seller := 0, encryptedBuyerPrice := 0, encryptedSellerPrice := 0,
    publicBuyerPrice := 0, publicSellerPrice := 0,
    buyerRevealed := false, sellerRevealed := false, dealMatched := false,
    timestamp := 0 }

/-- The external confidential-compute boundary and id derivation:
`fromExternal` ingests an external ciphertext with a proof into a handle,
`isInit` is the validity predicate `FHE.isInitialized`, `checkSig` is
`FHE.checkSignatures` on a handle / clear-value bytes / decryption proof,
`decodeU` is `abi.decode(bytes, uint256)`, and `deriveId` is
`keccak256(abi.encodePacked(msg.sender, block.timestamp))`. -/
structure FHEEnv where
  fromExternal : Nat → Nat → Nat
  isInit : Nat → Bool
  checkSig : Nat → Nat → Nat → Bool
  decodeU : Nat → Nat
  deriveId : Nat → Nat → Nat

inductive Event where
  | SessionCreated (sessionId buyer seller : Nat)
  | PriceRevealed (sessionId revealer price : Nat)
  | DealMatched (sessionId price : Nat)
deriving DecidableEq, Repr

inductive Err where
  | AlreadyExists
  | InvalidEncryption
  | NotFound
  | AlreadyJoined
  | Unauthorized
  | AlreadyRevealed
  | InvalidProof
deriving DecidableEq, Repr

structure ContractState where
  sessions : Nat → Session
  sessionIds : List Nat

def initState : ContractState := { sessions := fun _ => defaultSession, sessionIds := [] }

def setSession (st : ContractState) (sid : Nat) (s : Session) : ContractState :=
  { st with sessions := fun x => if x = sid then s else st.sessions x }

/-- `createSession`: derive the id, require it fresh (`AlreadyExists`),
ingest both ciphertexts, require both initialized (`InvalidEncryption`,
buyer checked first), store the session with `seller` unset, push the id,
emit `SessionCreated(sid, sender, 0)`. -/
def createSession (env : FHEEnv) (sender time : Nat) (st : ContractState)
    (extBuyer extSeller buyerProof sellerProof pubBuyer pubSeller : Nat) :
    Except Err (ContractState × List Event × Nat) :=
  let sid := env.deriveId sender time
  if (st.sessions sid).timestamp ≠ 0 then .error .AlreadyExists
  else
    let encB := env.fromExternal extBuyer buyerProof
    let encS := env.fromExternal extSeller sellerProof
    if env.isInit encB = false then .error .InvalidEncryption
    else if env.isInit encS = false then .error .InvalidEncryption
    else
      let s : Session :=
        { buyer := sender, seller := 0,
          encryptedBuyerPrice := encB, encryptedSellerPrice := encS,
          publicBuyerPrice := pubBuyer, publicSellerPrice := pubSeller,
          buyerRevealed := false, sellerRevealed := false, dealMatched := false,
          timestamp := time }
      .ok ({ sessions := fun x => if x = sid then s else st.sessions x,
             sessionIds := st.sessionIds ++ [sid] },
           [Event.SessionCreated sid sender 0], sid)

/-- `joinSession`: require existence (`NotFound`), require seller unset
(`AlreadyJoined`), ingest and validate the seller ciphertext
(`InvalidEncryption`), then bind `seller := sender`, overwrite the seller
handle and provisional price, and re-emit `SessionCreated`. -/
def joinSession (env : FHEEnv) (sender : Nat) (st : ContractState)
    (sid extSeller sellerProof pubSeller : Nat) :
    Except Err (ContractState × List Event) :=
  let s := st.sessions sid
  if s.timestamp = 0 then .error .NotFound
  else if s.seller ≠ 0 then .error .AlreadyJoined
  else
    let encS := env.fromExternal extSeller sellerProof
    if env.isInit encS = false then .error .InvalidEncryption
    else
      let s1 := { s with seller := sender, encryptedSellerPrice := encS,
                         publicSellerPrice := pubSeller }
      .ok (setSession st sid s1, [Event.SessionCreated sid s.buyer sender])

/-- `checkDeal`: if `publicBuyerPrice >= publicSellerPrice`, set
`dealMatched := true` and emit `DealMatched(sid, publicSellerPrice)`;
otherwise leave the session unchanged and emit nothing. -/
def checkDeal (sid : Nat) (s : Session) : Session × List Event :=
  if s.publicBuyerPrice ≥ s.publicSellerPrice then
    ({ s with dealMatched := true }, [Event.DealMatched sid s.publicSellerPrice])
  else (s, [])

/-- `revealBuyerPrice`: require existence (`NotFound`), caller is the
buyer (`Unauthorized`), not yet revealed (`AlreadyRevealed`), decryption
proof valid (`InvalidProof`); then record the clear price, set
`buyerRevealed`, emit `PriceRevealed`, and if the seller has already
revealed run `checkDeal`. -/
def revealBuyerPrice (env : FHEEnv) (sender : Nat) (st : ContractState)
    (sid clearBytes proof : Nat) :
    Except Err (ContractState × List Event) :=
  let s := st.sessions sid
  if s.timestamp = 0 then .error .NotFound
  else if sender ≠ s.buyer then .error .Unauthorized
  else if s.buyerRevealed then .error .AlreadyRevealed
  else if env.checkSig s.encryptedBuyerPrice clearBytes proof = false then .error .InvalidProof
  else
    let price := env.decodeU clearBytes
    let s1 := { s with publicBuyerPrice := price, buyerRevealed := true }
    if s1.sellerRevealed then
      let r := checkDeal sid s1
      .ok (setSession st sid r.1, Event.PriceRevealed sid sender price :: r.2)
    else
      .ok (setSession st sid s1, [Event.PriceRevealed sid sender price])

/-- `revealSellerPrice`: symmetric to `revealBuyerPrice` with the roles
swapped. -/
def revealSellerPrice (env : FHEEnv) (sender : Nat) (st : ContractState)
    (sid clearBytes proof : Nat) :
    Except Err (ContractState × List Event) :=
  let s := st.sessions sid
  if s.timestamp = 0 then .error .NotFound
  else if sender ≠ s.seller then .error .Unauthorized
  else if s.sellerRevealed then .error .AlreadyRevealed
  else if env.checkSig s.encryptedSellerPrice clearBytes proof = false then .error .InvalidProof
  else
    let price := env.decodeU clearBytes
    let s1 := { s with publicSellerPrice := price, sellerRevealed := true }
    if s1.buyerRevealed then
      let r := checkDeal sid s1
      .ok (setSession st sid r.1, Event.PriceRevealed sid sender price :: r.2)
    else
      .ok (setSession st sid s1, [Event.PriceRevealed sid sender price])

def getAllSessionIds (st : ContractState) : List Nat := st.sessionIds

/-- One external call, tagged with its `msg.sender` (and for create its
`block.timestamp`). -/
inductive Op where
  | create (sender time extB extS pB pS pubB pubS : Nat)
  | join (sender sid extS proof pubS : Nat)
  | revealB (sender sid clearBytes proof : Nat)
  | revealS (sender sid clearBytes proof : Nat)
deriving DecidableEq, Repr

def applyOp (env : FHEEnv) (st : ContractState) : Op → Except Err (ContractState × List Event)
  | .create sender time extB extS pB pS pubB pubS =>
      (createSession env sender time st extB extS pB pS pubB pubS).map (fun r => (r.1, r.2.1))
  | .join sender sid extS proof pubS => joinSession env sender st sid extS proof pubS
  | .revealB sender sid cb p => revealBuyerPrice env sender st sid cb p
  | .revealS sender sid cb p => revealSellerPrice env sender st sid cb p

/-- EVM revert semantics: a failed call leaves the state unchanged and
emits nothing. -/
def execOp (env : FHEEnv) (st : ContractState) (op : Op) : ContractState × List Event :=
  match applyOp env st op with
  | .ok r => r
  | .error _ => (st, [])

def execTrace (env : FHEEnv) (st : ContractState) : List Op → ContractState × List Event
  | [] => (st, [])
  | op :: ops =>
      let r := execOp env st op
      let r2 := execTrace env r.1 ops
      (r2.1, r.2 ++ r2.2)

/-- Environment assumption on real chains: callers are never the zero
address and block timestamps are nonzero. -/
def goodOp : Op → Bool
  | .create sender time _ _ _ _ _ _ => sender ≠ 0 && time ≠ 0
  | .join sender _ _ _ _ => sender ≠ 0
  | .revealB sender _ _ _ => sender ≠ 0
  | .revealS sender _ _ _ => sender ≠ 0

inductive Reachable (env : FHEEnv) : ContractState → Prop where
  | init : Reachable env initState
  | step {st : ContractState} {op : Op} : Reachable env st → goodOp op = true →
      Reachable env (execOp env st op).1

/-- The id pushed by one call: the derived id when the call is a
successful create, nothing otherwise. -/
def opCreatedId (env : FHEEnv) (st : ContractState) (op : Op) : List Nat :=
  match op, applyOp env st op with
  | .create sender time _ _ _ _ _ _, .ok _ => [env.deriveId sender time]
  | _, _ => []

/-- The ids pushed by the successful creates of a trace, in commit
order. -/
def createdIds (env : FHEEnv) (st : ContractState) : List Op → List Nat
  | [] => []
  | op :: ops => opCreatedId env st op ++ createdIds env (execOp env st op).1 ops

/-- Concrete environment used to exercise the model on closed inputs. -/
def env0 : FHEEnv :=
  { fromExternal := fun e _ => e,
    isInit := fun h => h != 0,
    checkSig := fun h c p => h + c == p,
    decodeU := fun c => c,
    deriveId := fun s t => s * 1000 + t }

def afterOp (env : FHEEnv) (st : ContractState) (op : Op) : ContractState :=
  (execOp env st op).1

def eventsOf (env : FHEEnv) (st : ContractState) (op : Op) : List Event :=
  (execOp env st op).2

def isMatchEvent : Event → Bool
  | .DealMatched _ _ => true
  | _ => false

/-! ### Basic lemmas about the store and the operation wrappers -/

theorem setSession_sessions_self (st : ContractState) (sid : Nat) (s : Session) :
    (setSession st sid s).sessions sid = s := by
  simp [setSession]

theorem setSession_sessions_ne (st : ContractState) (sid : Nat) (s : Session)
    (x : Nat) (h : x ≠ sid) : (setSession st sid s).sessions x = st.sessions x := by
  simp [setSession, h]

theorem setSession_sessionIds (st : ContractState) (sid : Nat) (s : Session) :
    (setSession st sid s).sessionIds = st.sessionIds := rfl

theorem setSession_setSession (st : ContractState) (sid : Nat) (a b : Session) :
    setSession (setSession st sid a) sid b = setSession st sid b := by
  simp only [setSession]
  congr 1
  funext x
  by_cases h : x = sid <;> simp [h]

theorem execOp_eq_of_error (env : FHEEnv) (st : ContractState) (op : Op) (e : Err)
    (h : applyOp env st op = .error e) : execOp env st op = (st, []) := by
  simp [execOp, h]

theorem execOp_eq_of_ok (env : FHEEnv) (st : ContractState) (op : Op)
    (r : ContractState × List Event)
    (h : applyOp env st op = .ok r) : execOp env st op = r := by
  simp [execOp, h]

/-! ### Case characterizations of the four operations -/

theorem createSession_exists (env : FHEEnv) (sender time : Nat) (st : ContractState)
    (extB extS pB pS pubB pubS : Nat)
    (h : (st.sessions (env.deriveId sender time)).timestamp ≠ 0) :
    createSession env sender time st extB extS pB pS pubB pubS = .error .AlreadyExists := by
  simp [createSession, h]

theorem createSession_badBuyer (env : FHEEnv) (sender time : Nat) (st : ContractState)
    (extB extS pB pS pubB pubS : Nat)
    (h : (st.sessions (env.deriveId sender time)).timestamp = 0)
    (hb : env.isInit (env.fromExternal extB pB) = false) :
    createSession env sender time st extB extS pB pS pubB pubS = .error .InvalidEncryption := by
  simp [createSession, h, hb]

theorem createSession_badSeller (env : FHEEnv) (sender time : Nat) (st : ContractState)
    (extB extS pB pS pubB pubS : Nat)
    (h : (st.sessions (env.deriveId sender time)).timestamp = 0)
    (hb : env.isInit (env.fromExternal extB pB) = true)
    (hs : env.isInit (env.fromExternal extS pS) = false) :
    createSession env sender time st extB extS pB pS pubB pubS = .error .InvalidEncryption := by
  simp [createSession, h, hb, hs]

theorem createSession_ok (env : FHEEnv) (sender time : Nat) (st : ContractState)
    (extB extS pB pS pubB pubS : Nat)
    (h : (st.sessions (env.deriveId sender time)).timestamp = 0)
    (hb : env.isInit (env.fromExternal extB pB) = true)
    (hs : env.isInit (env.fromExternal extS pS) = true) :
    createSession env sender time st extB extS pB pS pubB pubS =
      .ok ({ sessions := fun x => if x = env.deriveId sender time then
               { buyer := sender, seller := 0,
                 encryptedBuyerPrice := env.fromExternal extB pB,
                 encryptedSellerPrice := env.fromExternal extS pS,
                 publicBuyerPrice := pubB, publicSellerPrice := pubS,
                 buyerRevealed := false, sellerRevealed := false, dealMatched := false,
                 timestamp := time }
             else st.sessions x,
             sessionIds := st.sessionIds ++ [env.deriveId sender time] },
           [Event.SessionCreated (env.deriveId sender time) sender 0],
           env.deriveId sender time) := by
  simp [createSession, h, hb, hs]

theorem joinSession_notFound (env : FHEEnv) (sender : Nat) (st : ContractState)
    (sid extS proof pubS : Nat) (h : (st.sessions sid).timestamp = 0) :
    joinSession env sender st sid extS proof pubS = .error .NotFound := by
  simp [joinSession, h]

theorem joinSession_already (env : FHEEnv) (sender : Nat) (st : ContractState)
    (sid extS proof pubS : Nat) (h : (st.sessions sid).timestamp ≠ 0)
    (hj : (st.sessions sid).seller ≠ 0) :
    joinSession env sender st sid extS proof pubS = .error .AlreadyJoined := by
  simp [joinSession, h, hj]

theorem joinSession_badEnc (env : FHEEnv) (sender : Nat) (st : ContractState)
    (sid extS proof pubS : Nat) (h : (st.sessions sid).timestamp ≠ 0)
    (hj : (st.sessions sid).seller = 0)
    (he : env.isInit (env.fromExternal extS proof) = false) :
    joinSession env sender st sid extS proof pubS = .error .InvalidEncryption := by
  simp [joinSession, h, hj, he]

theorem joinSession_ok (env : FHEEnv) (sender : Nat) (st : ContractState)
    (sid extS proof pubS : Nat) (h : (st.sessions sid).timestamp ≠ 0)
    (hj : (st.sessions sid).seller = 0)
    (he : env.isInit (env.fromExternal extS proof) = true) :
    joinSession env sender st sid extS proof pubS =
      .ok (setSession st sid
            { st.sessions sid with
              seller := sender,
              encryptedSellerPrice := env.fromExternal extS proof,
              publicSellerPrice := pubS },
           [Event.SessionCreated sid (st.sessions sid).buyer sender]) := by
  simp [joinSession, h, hj, he]

theorem revealBuyerPrice_notFound (env : FHEEnv) (sender : Nat) (st : ContractState)
    (sid cb p : Nat) (h : (st.sessions sid).timestamp = 0) :
    revealBuyerPrice env sender st sid cb p = .error .NotFound := by
  simp [revealBuyerPrice, h]

theorem revealBuyerPrice_unauth (env : FHEEnv) (sender : Nat) (st : ContractState)
    (sid cb p : Nat) (h : (st.sessions sid).timestamp ≠ 0)
    (ha : sender ≠ (st.sessions sid).buyer) :
    revealBuyerPrice env sender st sid cb p = .error .Unauthorized := by
  simp [revealBuyerPrice, h, ha]

theorem revealBuyerPrice_already (env : FHEEnv) (sender : Nat) (st : ContractState)
    (sid cb p : Nat) (h : (st.sessions sid).timestamp ≠ 0)
    (ha : sender = (st.sessions sid).buyer)
    (hr : (st.sessions sid).buyerRevealed = true) :
    revealBuyerPrice env sender st sid cb p = .error .AlreadyRevealed := by
  simp [revealBuyerPrice, h, ha, hr]

theorem revealBuyerPrice_badProof (env : FHEEnv) (sender : Nat) (st : ContractState)
    (sid cb p : Nat) (h : (st.sessions sid).timestamp ≠ 0)
    (ha : sender = (st.sessions sid).buyer)
    (hr : (st.sessions sid).buyerRevealed = false)
    (hc : env.checkSig (st.sessions sid).encryptedBuyerPrice cb p = false) :
    revealBuyerPrice env sender st sid cb p = .error .InvalidProof := by
  simp [revealBuyerPrice, h, ha, hr, hc]

theorem revealBuyerPrice_ok_first (env : FHEEnv) (sender : Nat) (st : ContractState)
    (sid cb p : Nat) (h : (st.sessions sid).timestamp ≠ 0)
    (ha : sender = (st.sessions sid).buyer)
    (hr : (st.sessions sid).buyerRevealed = false)
    (hc : env.checkSig (st.sessions sid).encryptedBuyerPrice cb p = true)
    (ho : (st.sessions sid).sellerRevealed = false) :
    revealBuyerPrice env sender st sid cb p =
      .ok (setSession st sid
            { st.sessions sid with
              publicBuyerPrice := env.decodeU cb, buyerRevealed := true },
           [Event.PriceRevealed sid sender (env.decodeU cb)]) := by
  simp [revealBuyerPrice, h, ha, hr, hc, ho]

theorem revealBuyerPrice_ok_second (env : FHEEnv) (sender : Nat) (st : ContractState)
    (sid cb p : Nat) (h : (st.sessions sid).timestamp ≠ 0)
    (ha : sender = (st.sessions sid).buyer)
    (hr : (st.sessions sid).buyerRevealed = false)
    (hc : env.checkSig (st.sessions sid).encryptedBuyerPrice cb p = true)
    (ho : (st.sessions sid).sellerRevealed = true) :
    revealBuyerPrice env sender st sid cb p =
      .ok (setSession st sid
            (checkDeal sid { st.sessions sid with
                             publicBuyerPrice := env.decodeU cb, buyerRevealed := true }).1,
           Event.PriceRevealed sid sender (env.decodeU cb) ::
             (checkDeal sid { st.sessions sid with
                              publicBuyerPrice := env.decodeU cb, buyerRevealed := true }).2) := by
  simp [revealBuyerPrice, h, ha, hr, hc, ho]

theorem revealSellerPrice_notFound (env : FHEEnv) (sender : Nat) (st : ContractState)
    (sid cb p : Nat) (h : (st.sessions sid).timestamp = 0) :
    revealSellerPrice env sender st sid cb p = .error .NotFound := by
  simp [revealSellerPrice, h]

theorem revealSellerPrice_unauth (env : FHEEnv) (sender : Nat) (st : ContractState)
    (sid cb p : Nat) (h : (st.sessions sid).timestamp ≠ 0)
    (ha : sender ≠ (st.sessions sid).seller) :
    revealSellerPrice env sender st sid cb p = .error .Unauthorized := by
  simp [revealSellerPrice, h, ha]

theorem revealSellerPrice_already (env : FHEEnv) (sender : Nat) (st : ContractState)
    (sid cb p : Nat) (h : (st.sessions sid).timestamp ≠ 0)
    (ha : sender = (st.sessions sid).seller)
    (hr : (st.sessions sid).sellerRevealed = true) :
    revealSellerPrice env sender st sid cb p = .error .AlreadyRevealed := by
  simp [revealSellerPrice, h, ha, hr]

theorem revealSellerPrice_badProof (env : FHEEnv) (sender : Nat) (st : ContractState)
    (sid cb p : Nat) (h : (st.sessions sid).timestamp ≠ 0)
    (ha : sender = (st.sessions sid).seller)
    (hr : (st.sessions sid).sellerRevealed = false)
    (hc : env.checkSig (st.sessions sid).encryptedSellerPrice cb p = false) :
    revealSellerPrice env sender st sid cb p = .error .InvalidProof := by
  simp [revealSellerPrice, h, ha, hr, hc]

theorem revealSellerPrice_ok_first (env : FHEEnv) (sender : Nat) (st : ContractState)
    (sid cb p : Nat) (h : (st.sessions sid).timestamp ≠ 0)
    (ha : sender = (st.sessions sid).seller)
    (hr : (st.sessions sid).sellerRevealed = false)
    (hc : env.checkSig (st.sessions sid).encryptedSellerPrice cb p = true)
    (ho : (st.sessions sid).buyerRevealed = false) :
    revealSellerPrice env sender st sid cb p =
      .ok (setSession st sid
            { st.sessions sid with
              publicSellerPrice := env.decodeU cb, sellerRevealed := true },
           [Event.PriceRevealed sid sender (env.decodeU cb)]) := by
  simp [revealSellerPrice, h, ha, hr, hc, ho]

theorem revealSellerPrice_ok_second (env : FHEEnv) (sender : Nat) (st : ContractState)
    (sid cb p : Nat) (h : (st.sessions sid).timestamp ≠ 0)
    (ha : sender = (st.sessions sid).seller)
    (hr : (st.sessions sid).sellerRevealed = false)
    (hc : env.checkSig (st.sessions sid).encryptedSellerPrice cb p = true)
    (ho : (st.sessions sid).buyerRevealed = true) :
    revealSellerPrice env sender st sid cb p =
      .ok (setSession st sid
            (checkDeal sid { st.sessions sid with
                             publicSellerPrice := env.decodeU cb, sellerRevealed := true }).1,
           Event.PriceRevealed sid sender (env.decodeU cb) ::
             (checkDeal sid { st.sessions sid with
                              publicSellerPrice := env.decodeU cb, sellerRevealed := true }).2) := by
  simp [revealSellerPrice, h, ha, hr, hc, ho]

theorem checkDeal_pos (sid : Nat) (s : Session)
    (h : s.publicBuyerPrice ≥ s.publicSellerPrice) :
    checkDeal sid s = ({ s with dealMatched := true },
                       [Event.DealMatched sid s.publicSellerPrice]) := by
  simp [checkDeal, h]

theorem checkDeal_neg (sid : Nat) (s : Session)
    (h : ¬ s.publicBuyerPrice ≥ s.publicSellerPrice) :
    checkDeal sid s = (s, []) := by
  simp [checkDeal, h]

theorem checkDeal_fst_timestamp (sid : Nat) (s : Session) :
    (checkDeal sid s).1.timestamp = s.timestamp := by
  by_cases h : s.publicBuyerPrice ≥ s.publicSellerPrice <;> simp [checkDeal, h]

theorem checkDeal_fst_prices (sid : Nat) (s : Session) :
    (checkDeal sid s).1.publicBuyerPrice = s.publicBuyerPrice ∧
    (checkDeal sid s).1.publicSellerPrice = s.publicSellerPrice := by
  by_cases h : s.publicBuyerPrice ≥ s.publicSellerPrice <;> simp [checkDeal, h]

theorem checkDeal_fst_flags (sid : Nat) (s : Session) :
    (checkDeal sid s).1.buyerRevealed = s.buyerRevealed ∧
    (checkDeal sid s).1.sellerRevealed = s.sellerRevealed ∧
    (checkDeal sid s).1.seller = s.seller := by
  by_cases h : s.publicBuyerPrice ≥ s.publicSellerPrice <;> simp [checkDeal, h]

/-! ### `execOp`-level case lemmas -/

theorem execOp_create_err (env : FHEEnv) (st : ContractState)
    (sender time extB extS pB pS pubB pubS : Nat) (e : Err)
    (h : createSession env sender time st extB extS pB pS pubB pubS = .error e) :
    execOp env st (.create sender time extB extS pB pS pubB pubS) = (st, []) := by
  simp [execOp, applyOp, h, Except.map]

theorem execOp_create_ok (env : FHEEnv) (st : ContractState)
    (sender time extB extS pB pS pubB pubS : Nat)
    (h : (st.sessions (env.deriveId sender time)).timestamp = 0)
    (hb : env.isInit (env.fromExternal extB pB) = true)
    (hs : env.isInit (env.fromExternal extS pS) = true) :
    execOp env st (.create sender time extB extS pB pS pubB pubS) =
      ({ sessions := fun x => if x = env.deriveId sender time then
           { buyer := sender, seller := 0,
             encryptedBuyerPrice := env.fromExternal extB pB,
             encryptedSellerPrice := env.fromExternal extS pS,
             publicBuyerPrice := pubB, publicSellerPrice := pubS,
             buyerRevealed := false, sellerRevealed := false, dealMatched := false,
             timestamp := time }
         else st.sessions x,
         sessionIds := st.sessionIds ++ [env.deriveId sender time] },
       [Event.SessionCreated (env.deriveId sender time) sender 0]) := by
  simp [execOp, applyOp, createSession_ok env sender time st extB extS pB pS pubB pubS h hb hs,
        Except.map]

theorem execOp_join_err (env : FHEEnv) (st : ContractState)
    (sender sid extS proof pubS : Nat) (e : Err)
    (h : joinSession env sender st sid extS proof pubS = .error e) :
    execOp env st (.join sender sid extS proof pubS) = (st, []) := by
  simp [execOp, applyOp, h]

theorem execOp_join_ok (env : FHEEnv) (st : ContractState)
    (sender sid extS proof pubS : Nat)
    (h : (st.sessions sid).timestamp ≠ 0)
    (hj : (st.sessions sid).seller = 0)
    (he : env.isInit (env.fromExternal extS proof) = true) :
    execOp env st (.join sender sid extS proof pubS) =
      (setSession st sid
        { st.sessions sid with
          seller := sender,
          encryptedSellerPrice := env.fromExternal extS proof,
          publicSellerPrice := pubS },
       [Event.SessionCreated sid (st.sessions sid).buyer sender]) := by
  simp [execOp, applyOp, joinSession_ok env sender st sid extS proof pubS h hj he]

theorem execOp_revealB_err (env : FHEEnv) (st : ContractState)
    (sender sid cb p : Nat) (e : Err)
    (h : revealBuyerPrice env sender st sid cb p = .error e) :
    execOp env st (.revealB sender sid cb p) = (st, []) := by
  simp [execOp, applyOp, h]

theorem execOp_revealB_ok_first (env : FHEEnv) (st : ContractState)
    (sender sid cb p : Nat) (h : (st.sessions sid).timestamp ≠ 0)
    (ha : sender = (st.sessions sid).buyer)
    (hr : (st.sessions sid).buyerRevealed = false)
    (hc : env.checkSig (st.sessions sid).encryptedBuyerPrice cb p = true)
    (ho : (st.sessions sid).sellerRevealed = false) :
    execOp env st (.revealB sender sid cb p) =
      (setSession st sid
        { st.sessions sid with
          publicBuyerPrice := env.decodeU cb, buyerRevealed := true },
       [Event.PriceRevealed sid sender (env.decodeU cb)]) := by
  simp [execOp, applyOp, revealBuyerPrice_ok_first env sender st sid cb p h ha hr hc ho]

theorem execOp_revealB_ok_second (env : FHEEnv) (st : ContractState)
    (sender sid cb p : Nat) (h : (st.sessions sid).timestamp ≠ 0)
    (ha : sender = (st.sessions sid).buyer)
    (hr : (st.sessions sid).buyerRevealed = false)
    (hc : env.checkSig (st.sessions sid).encryptedBuyerPrice cb p = true)
    (ho : (st.sessions sid).sellerRevealed = true) :
    execOp env st (.revealB sender sid cb p) =
      (setSession st sid
        (checkDeal sid { st.sessions sid with
                         publicBuyerPrice := env.decodeU cb, buyerRevealed := true }).1,
       Event.PriceRevealed sid sender (env.decodeU cb) ::
         (checkDeal sid { st.sessions sid with
                          publicBuyerPrice := env.decodeU cb, buyerRevealed := true }).2) := by
  simp [execOp, applyOp, revealBuyerPrice_ok_second env sender st sid cb p h ha hr hc ho]

theorem execOp_revealS_err (env : FHEEnv) (st : ContractState)
    (sender sid cb p : Nat) (e : Err)
    (h : revealSellerPrice env sender st sid cb p = .error e) :
    execOp env st (.revealS sender sid cb p) = (st, []) := by
  simp [execOp, applyOp, h]

theorem execOp_revealS_ok_first (env : FHEEnv) (st : ContractState)
    (sender sid cb p : Nat) (h : (st.sessions sid).timestamp ≠ 0)
    (ha : sender = (st.sessions sid).seller)
    (hr : (st.sessions sid).sellerRevealed = false)
    (hc : env.checkSig (st.sessions sid).encryptedSellerPrice cb p = true)
    (ho : (st.sessions sid).buyerRevealed = false) :
    execOp env st (.revealS sender sid cb p) =
      (setSession st sid
        { st.sessions sid with
          publicSellerPrice := env.decodeU cb, sellerRevealed := true },
       [Event.PriceRevealed sid sender (env.decodeU cb)]) := by
  simp [execOp, applyOp, revealSellerPrice_ok_first env sender st sid cb p h ha hr hc ho]

theorem execOp_revealS_ok_second (env : FHEEnv) (st : ContractState)
    (sender sid cb p : Nat) (h : (st.sessions sid).timestamp ≠ 0)
    (ha : sender = (st.sessions sid).seller)
    (hr : (st.sessions sid).sellerRevealed = false)
    (hc : env.checkSig (st.sessions sid).encryptedSellerPrice cb p = true)
    (ho : (st.sessions sid).buyerRevealed = true) :
    execOp env st (.revealS sender sid cb p) =
      (setSession st sid
        (checkDeal sid { st.sessions sid with
                         publicSellerPrice := env.decodeU cb, sellerRevealed := true }).1,
       Event.PriceRevealed sid sender (env.decodeU cb) ::
         (checkDeal sid { st.sessions sid with
                          publicSellerPrice := env.decodeU cb, sellerRevealed := true }).2) := by
  simp [execOp, applyOp, revealSellerPrice_ok_second env sender st sid cb p h ha hr hc ho]

/-- Every call either reverts (pre-state kept, no events) or is one of the
six successful shapes: create, join, first-reveal or second-reveal on
either side. -/
theorem execOp_cases (env : FHEEnv) (st : ContractState) (op : Op) :
    execOp env st op = (st, []) ∨
    (∃ sender time extB extS pB pS pubB pubS,
      op = Op.create sender time extB extS pB pS pubB pubS ∧
      (st.sessions (env.deriveId sender time)).timestamp = 0 ∧
      execOp env st op =
        ({ sessions := fun x => if x = env.deriveId sender time then
             { buyer := sender, seller := 0,
               encryptedBuyerPrice := env.fromExternal extB pB,
               encryptedSellerPrice := env.fromExternal extS pS,
               publicBuyerPrice := pubB, publicSellerPrice := pubS,
               buyerRevealed := false, sellerRevealed := false, dealMatched := false,
               timestamp := time }
           else st.sessions x,
           sessionIds := st.sessionIds ++ [env.deriveId sender time] },
         [Event.SessionCreated (env.deriveId sender time) sender 0])) ∨
    (∃ sender sid extS proof pubS,
      op = Op.join sender sid extS proof pubS ∧
      (st.sessions sid).timestamp ≠ 0 ∧ (st.sessions sid).seller = 0 ∧
      execOp env st op =
        (setSession st sid
          { st.sessions sid with
            seller := sender,
            encryptedSellerPrice := env.fromExternal extS proof,
            publicSellerPrice := pubS },
         [Event.SessionCreated sid (st.sessions sid).buyer sender])) ∨
    (∃ sender sid cb p,
      op = Op.revealB sender sid cb p ∧
      (st.sessions sid).timestamp ≠ 0 ∧ sender = (st.sessions sid).buyer ∧
      (st.sessions sid).buyerRevealed = false ∧ (st.sessions sid).sellerRevealed = false ∧
      execOp env st op =
        (setSession st sid
          { st.sessions sid with
            publicBuyerPrice := env.decodeU cb, buyerRevealed := true },
         [Event.PriceRevealed sid sender (env.decodeU cb)])) ∨
    (∃ sender sid cb p,
      op = Op.revealB sender sid cb p ∧
      (st.sessions sid).timestamp ≠ 0 ∧ sender = (st.sessions sid).buyer ∧
      (st.sessions sid).buyerRevealed = false ∧ (st.sessions sid).sellerRevealed = true ∧
      execOp env st op =
        (setSession st sid
          (checkDeal sid { st.sessions sid with
                           publicBuyerPrice := env.decodeU cb, buyerRevealed := true }).1,
         Event.PriceRevealed sid sender (env.decodeU cb) ::
           (checkDeal sid { st.sessions sid with
                            publicBuyerPrice := env.decodeU cb, buyerRevealed := true }).2)) ∨
    (∃ sender sid cb p,
      op = Op.revealS sender sid cb p ∧
      (st.sessions sid).timestamp ≠ 0 ∧ sender = (st.sessions sid).seller ∧
      (st.sessions sid).sellerRevealed = false ∧ (st.sessions sid).buyerRevealed = false ∧
      execOp env st op =
        (setSession st sid
          { st.sessions sid with
            publicSellerPrice := env.decodeU cb, sellerRevealed := true },
         [Event.PriceRevealed sid sender (env.decodeU cb)])) ∨
    (∃ sender sid cb p,
      op = Op.revealS sender sid cb p ∧
      (st.sessions sid).timestamp ≠ 0 ∧ sender = (st.sessions sid).seller ∧
      (st.sessions sid).sellerRevealed = false ∧ (st.sessions sid).buyerRevealed = true ∧
      execOp env st op =
        (setSession st sid
          (checkDeal sid { st.sessions sid with
                           publicSellerPrice := env.decodeU cb, sellerRevealed := true }).1,
         Event.PriceRevealed sid sender (env.decodeU cb) ::
           (checkDeal sid { st.sessions sid with
                            publicSellerPrice := env.decodeU cb, sellerRevealed := true }).2)) := by
  cases op with
  | create sender time extB extS pB pS pubB pubS =>
    by_cases hex : (st.sessions (env.deriveId sender time)).timestamp = 0
    · rcases Bool.eq_false_or_eq_true (env.isInit (env.fromExternal extB pB)) with hb | hb
      · rcases Bool.eq_false_or_eq_true (env.isInit (env.fromExternal extS pS)) with hs | hs
        · exact Or.inr (Or.inl ⟨sender, time, extB, extS, pB, pS, pubB, pubS, rfl, hex,
            execOp_create_ok env st sender time extB extS pB pS pubB pubS hex hb hs⟩)
        · exact Or.inl (execOp_create_err env st sender time extB extS pB pS pubB pubS
            .InvalidEncryption
            (createSession_badSeller env sender time st extB extS pB pS pubB pubS hex hb hs))
      · exact Or.inl (execOp_create_err env st sender time extB extS pB pS pubB pubS
          .InvalidEncryption
          (createSession_badBuyer env sender time st extB extS pB pS pubB pubS hex hb))
    · exact Or.inl (execOp_create_err env st sender time extB extS pB pS pubB pubS
        .AlreadyExists (createSession_exists env sender time st extB extS pB pS pubB pubS hex))
  | join sender sid extS proof pubS =>
    by_cases hts : (st.sessions sid).timestamp = 0
    · exact Or.inl (execOp_join_err env st sender sid extS proof pubS .NotFound
        (joinSession_notFound env sender st sid extS proof pubS hts))
    · by_cases hsel : (st.sessions sid).seller = 0
      · rcases Bool.eq_false_or_eq_true (env.isInit (env.fromExternal extS proof)) with he | he
        · exact Or.inr (Or.inr (Or.inl ⟨sender, sid, extS, proof, pubS, rfl, hts, hsel,
            execOp_join_ok env st sender sid extS proof pubS hts hsel he⟩))
        · exact Or.inl (execOp_join_err env st sender sid extS proof pubS .InvalidEncryption
            (joinSession_badEnc env sender st sid extS proof pubS hts hsel he))
      · exact Or.inl (execOp_join_err env st sender sid extS proof pubS .AlreadyJoined
          (joinSession_already env sender st sid extS proof pubS hts hsel))
  | revealB sender sid cb p =>
    by_cases hts : (st.sessions sid).timestamp = 0
    · exact Or.inl (execOp_revealB_err env st sender sid cb p .NotFound
        (revealBuyerPrice_notFound env sender st sid cb p hts))
    · by_cases ha : sender = (st.sessions sid).buyer
      · rcases Bool.eq_false_or_eq_true ((st.sessions sid).buyerRevealed) with hr | hr
        · exact Or.inl (execOp_revealB_err env st sender sid cb p .AlreadyRevealed
            (revealBuyerPrice_already env sender st sid cb p hts ha hr))
        · rcases Bool.eq_false_or_eq_true
            (env.checkSig (st.sessions sid).encryptedBuyerPrice cb p) with hc | hc
          · rcases Bool.eq_false_or_eq_true ((st.sessions sid).sellerRevealed) with ho | ho
            · exact Or.inr (Or.inr (Or.inr (Or.inr (Or.inl ⟨sender, sid, cb, p, rfl, hts, ha,
                hr, ho, execOp_revealB_ok_second env st sender sid cb p hts ha hr hc ho⟩))))
            · exact Or.inr (Or.inr (Or.inr (Or.inl ⟨sender, sid, cb, p, rfl, hts, ha, hr, ho,
                execOp_revealB_ok_first env st sender sid cb p hts ha hr hc ho⟩)))
          · exact Or.inl (execOp_revealB_err env st sender sid cb p .InvalidProof
              (revealBuyerPrice_badProof env sender st sid cb p hts ha hr hc))
      · exact Or.inl (execOp_revealB_err env st sender sid cb p .Unauthorized
          (revealBuyerPrice_unauth env sender st sid cb p hts ha))
  | revealS sender sid cb p =>
    by_cases hts : (st.sessions sid).timestamp = 0
    · exact Or.inl (execOp_revealS_err env st sender sid cb p .NotFound
        (revealSellerPrice_notFound env sender st sid cb p hts))
    · by_cases ha : sender = (st.sessions sid).seller
      · rcases Bool.eq_false_or_eq_true ((st.sessions sid).sellerRevealed) with hr | hr
        · exact Or.inl (execOp_revealS_err env st sender sid cb p .AlreadyRevealed
            (revealSellerPrice_already env sender st sid cb p hts ha hr))
        · rcases Bool.eq_false_or_eq_true
            (env.checkSig (st.sessions sid).encryptedSellerPrice cb p) with hc | hc
          · rcases Bool.eq_false_or_eq_true ((st.sessions sid).buyerRevealed) with ho | ho
            · exact Or.inr (Or.inr (Or.inr (Or.inr (Or.inr (Or.inr ⟨sender, sid, cb, p, rfl,
                hts, ha, hr, ho,
                execOp_revealS_ok_second env st sender sid cb p hts ha hr hc ho⟩)))))
            · exact Or.inr (Or.inr (Or.inr (Or.inr (Or.inr (Or.inl ⟨sender, sid, cb, p, rfl,
                hts, ha, hr, ho,
                execOp_revealS_ok_first env st sender sid cb p hts ha hr hc ho⟩)))))
          · exact Or.inl (execOp_revealS_err env st sender sid cb p .InvalidProof
              (revealSellerPrice_badProof env sender st sid cb p hts ha hr hc))
      · exact Or.inl (execOp_revealS_err env st sender sid cb p .Unauthorized
          (revealSellerPrice_unauth env sender st sid cb p hts ha))


/-! ### Reachable-state invariants -/

/-- The creation log is duplicate-free and lists exactly the sessions
with a nonzero timestamp. -/
def InvStore (st : ContractState) : Prop :=
  st.sessionIds.Nodup ∧
  ∀ sid, sid ∈ st.sessionIds ↔ (st.sessions sid).timestamp ≠ 0

/-- A session with zero timestamp has never been written. -/
def InvDefault (st : ContractState) : Prop :=
  ∀ sid, (st.sessions sid).timestamp = 0 → st.sessions sid = defaultSession

/-- A matched deal has both sides revealed. -/
def InvDeal (st : ContractState) : Prop :=
  ∀ sid, (st.sessions sid).dealMatched = true →
    (st.sessions sid).buyerRevealed = true ∧ (st.sessions sid).sellerRevealed = true

/-- A seller-side reveal implies the session has been joined. -/
def InvSeller (st : ContractState) : Prop :=
  ∀ sid, (st.sessions sid).sellerRevealed = true → (st.sessions sid).seller ≠ 0

def Inv (st : ContractState) : Prop :=
  InvStore st ∧ InvDefault st ∧ InvDeal st ∧ InvSeller st

theorem inv_init : Inv initState := by
  refine ⟨⟨List.nodup_nil, ?_⟩, ?_, ?_, ?_⟩ <;>
    simp [InvStore, InvDefault, InvDeal, InvSeller, initState, defaultSession]

/-- Updating one existing session preserves `Inv`, provided the new
record keeps the timestamp and respects the per-session invariants. -/
theorem inv_update (st : ContractState) (sid : Nat) (s1 : Session)
    (h : Inv st)
    (hts : s1.timestamp = (st.sessions sid).timestamp)
    (hex : (st.sessions sid).timestamp ≠ 0)
    (hdl : s1.dealMatched = true → s1.buyerRevealed = true ∧ s1.sellerRevealed = true)
    (hsl : s1.sellerRevealed = true → s1.seller ≠ 0) :
    Inv (setSession st sid s1) := by
  obtain ⟨⟨hnd, hmem⟩, hdef, hdeal, hsell⟩ := h
  refine ⟨⟨hnd, ?_⟩, ?_, ?_, ?_⟩
  · intro x
    by_cases hx : x = sid
    · subst hx
      rw [setSession_sessionIds, setSession_sessions_self, hts]
      exact hmem x
    · rw [setSession_sessionIds, setSession_sessions_ne _ _ _ _ hx]
      exact hmem x
  · intro x hx
    by_cases hxe : x = sid
    · subst hxe
      rw [setSession_sessions_self, hts] at hx
      exact absurd hx hex
    · rw [setSession_sessions_ne _ _ _ _ hxe] at hx ⊢
      exact hdef x hx
  · intro x hx
    by_cases hxe : x = sid
    · subst hxe
      rw [setSession_sessions_self] at hx ⊢
      exact hdl hx
    · rw [setSession_sessions_ne _ _ _ _ hxe] at hx ⊢
      exact hdeal x hx
  · intro x hx
    by_cases hxe : x = sid
    · subst hxe
      rw [setSession_sessions_self] at hx ⊢
      exact hsl hx
    · rw [setSession_sessions_ne _ _ _ _ hxe] at hx ⊢
      exact hsell x hx

/-- Inserting a fresh session and appending its id preserves `Inv`. -/
theorem inv_insert (st : ContractState) (sid : Nat) (s1 : Session)
    (h : Inv st) (hfresh : (st.sessions sid).timestamp = 0)
    (hts : s1.timestamp ≠ 0)
    (hb : s1.buyerRevealed = false) (hs : s1.sellerRevealed = false)
    (hd : s1.dealMatched = false) :
    Inv { sessions := fun x => if x = sid then s1 else st.sessions x,
          sessionIds := st.sessionIds ++ [sid] } := by
  obtain ⟨⟨hnd, hmem⟩, hdef, hdeal, hsell⟩ := h
  have hnotin : sid ∉ st.sessionIds := fun hin => (hmem sid).1 hin hfresh
  refine ⟨⟨?_, ?_⟩, ?_, ?_, ?_⟩
  · simp [List.nodup_append, hnd, hnotin]
  · intro x
    by_cases hx : x = sid
    · subst hx
      simp [hts]
    · dsimp only
      simp only [List.mem_append, List.mem_singleton, hx, or_false, if_neg hx]
      exact hmem x
  · intro x hx
    dsimp only at hx ⊢
    by_cases hxe : x = sid
    · subst hxe
      rw [if_pos rfl] at hx
      exact absurd hx hts
    · rw [if_neg hxe] at hx ⊢
      exact hdef x hx
  · intro x hx
    dsimp only at hx ⊢
    by_cases hxe : x = sid
    · subst hxe
      rw [if_pos rfl] at hx ⊢
      rw [hd] at hx
      exact absurd hx Bool.false_ne_true
    · rw [if_neg hxe] at hx ⊢
      exact hdeal x hx
  · intro x hx
    dsimp only at hx ⊢
    by_cases hxe : x = sid
    · subst hxe
      rw [if_pos rfl] at hx
      rw [hs] at hx
      exact absurd hx Bool.false_ne_true
    · rw [if_neg hxe] at hx ⊢
      exact hsell x hx

theorem inv_step (env : FHEEnv) (st : ContractState) (op : Op)
    (hg : goodOp op = true) (h : Inv st) : Inv (execOp env st op).1 := by
  rcases execOp_cases env st op with heq |
    ⟨sender, time, extB, extS, pB, pS, pubB, pubS, hop, hex, heq⟩ |
    ⟨sender, sid, extS, proof, pubS, hop, hts, hsel, heq⟩ |
    ⟨sender, sid, cb, p, hop, hts, ha, hbr, hsr, heq⟩ |
    ⟨sender, sid, cb, p, hop, hts, ha, hbr, hsr, heq⟩ |
    ⟨sender, sid, cb, p, hop, hts, hsa, hsr, hbr, heq⟩ |
    ⟨sender, sid, cb, p, hop, hts, hsa, hsr, hbr, heq⟩
  · rw [heq]
    exact h
  · -- successful create
    subst hop
    simp only [goodOp, Bool.and_eq_true, decide_eq_true_eq] at hg
    rw [heq]
    exact inv_insert st _ _ h hex hg.2 rfl rfl rfl
  · -- successful join
    subst hop
    simp only [goodOp, decide_eq_true_eq] at hg
    rw [heq]
    refine inv_update st sid _ h rfl hts ?_ ?_
    · intro hx
      simp only at hx
      rcases (h.2.2.1 sid hx) with ⟨h1, h2⟩
      exact ⟨h1, h2⟩
    · intro _
      simpa using hg
  · -- buyer reveals first
    subst hop
    rw [heq]
    refine inv_update st sid _ h rfl hts ?_ ?_
    · intro hx
      simp only at hx
      exact absurd (h.2.2.1 sid hx).1 (by rw [hbr]; exact Bool.false_ne_true)
    · intro hx
      simp only at hx ⊢
      exact h.2.2.2 sid hx
  · -- buyer reveals second, deal decided
    subst hop
    rw [heq]
    refine inv_update st sid _ h ?_ hts ?_ ?_
    · rw [checkDeal_fst_timestamp]
    · intro _
      rcases checkDeal_fst_flags sid _ with ⟨hf1, hf2, _⟩
      rw [hf1, hf2]
      simpa using hsr
    · intro _
      rcases checkDeal_fst_flags sid _ with ⟨_, _, hf3⟩
      rw [hf3]
      simp only
      exact h.2.2.2 sid hsr
  · -- seller reveals first
    subst hop
    simp only [goodOp, decide_eq_true_eq] at hg
    rw [heq]
    refine inv_update st sid _ h rfl hts ?_ ?_
    · intro hx
      simp only at hx
      exact absurd (h.2.2.1 sid hx).2 (by rw [hsr]; exact Bool.false_ne_true)
    · intro _
      simp only
      rw [← hsa]
      exact hg
  · -- seller reveals second, deal decided
    subst hop
    simp only [goodOp, decide_eq_true_eq] at hg
    rw [heq]
    refine inv_update st sid _ h ?_ hts ?_ ?_
    · rw [checkDeal_fst_timestamp]
    · intro _
      rcases checkDeal_fst_flags sid _ with ⟨hf1, hf2, _⟩
      rw [hf1, hf2]
      simpa using hbr
    · intro _
      rcases checkDeal_fst_flags sid _ with ⟨_, _, hf3⟩
      rw [hf3]
      simp only
      rw [← hsa]
      exact hg

theorem reachable_inv (env : FHEEnv) (st : ContractState)
    (h : Reachable env st) : Inv st := by
  induction h with
  | init => exact inv_init
  | step hr hg ih => exact inv_step _ _ _ hg ih

/-! ### The creation log along a trace -/

theorem createSession_ok_ids (env : FHEEnv) (sender time : Nat) (st : ContractState)
    (extB extS pB pS pubB pubS : Nat) (t : ContractState × List Event × Nat)
    (h : createSession env sender time st extB extS pB pS pubB pubS = .ok t) :
    t.1.sessionIds = st.sessionIds ++ [env.deriveId sender time] := by
  simp only [createSession] at h
  split at h
  · simp at h
  · split at h
    · simp at h
    · split at h
      · simp at h
      · cases h
        rfl

theorem joinSession_ok_ids (env : FHEEnv) (sender : Nat) (st : ContractState)
    (sid extS proof pubS : Nat) (t : ContractState × List Event)
    (h : joinSession env sender st sid extS proof pubS = .ok t) :
    t.1.sessionIds = st.sessionIds := by
  simp only [joinSession] at h
  split at h
  · simp at h
  · split at h
    · simp at h
    · split at h
      · simp at h
      · cases h
        rfl

theorem revealBuyerPrice_ok_ids (env : FHEEnv) (sender : Nat) (st : ContractState)
    (sid cb p : Nat) (t : ContractState × List Event)
    (h : revealBuyerPrice env sender st sid cb p = .ok t) :
    t.1.sessionIds = st.sessionIds := by
  simp only [revealBuyerPrice] at h
  split at h
  · simp at h
  · split at h
    · simp at h
    · split at h
      · simp at h
      · split at h
        · simp at h
        · split at h
          · cases h
            rfl
          · cases h
            rfl

theorem revealSellerPrice_ok_ids (env : FHEEnv) (sender : Nat) (st : ContractState)
    (sid cb p : Nat) (t : ContractState × List Event)
    (h : revealSellerPrice env sender st sid cb p = .ok t) :
    t.1.sessionIds = st.sessionIds := by
  simp only [revealSellerPrice] at h
  split at h
  · simp at h
  · split at h
    · simp at h
    · split at h
      · simp at h
      · split at h
        · simp at h
        · split at h
          · cases h
            rfl
          · cases h
            rfl

/-- One call appends exactly the id of a successful create (and nothing
else) to the creation log. -/
theorem execOp_sessionIds (env : FHEEnv) (st : ContractState) (op : Op) :
    (execOp env st op).1.sessionIds = st.sessionIds ++ opCreatedId env st op := by
  cases happly : applyOp env st op with
  | error e =>
    rw [execOp_eq_of_error _ _ _ _ happly]
    cases op <;> simp [opCreatedId, happly]
  | ok r =>
    rw [execOp_eq_of_ok _ _ _ _ happly]
    cases op with
    | create sender time extB extS pB pS pubB pubS =>
      simp only [applyOp] at happly
      cases hc : createSession env sender time st extB extS pB pS pubB pubS with
      | error e => rw [hc] at happly; simp [Except.map] at happly
      | ok t =>
        rw [hc] at happly
        simp only [Except.map, Except.ok.injEq] at happly
        rw [← happly]
        simp [opCreatedId, applyOp, hc, Except.map, createSession_ok_ids _ _ _ _ _ _ _ _ _ _ _ hc]
    | join sender sid extS proof pubS =>
      simp only [applyOp] at happly
      simp [opCreatedId, applyOp, happly, joinSession_ok_ids _ _ _ _ _ _ _ _ happly]
    | revealB sender sid cb p =>
      simp only [applyOp] at happly
      simp [opCreatedId, applyOp, happly, revealBuyerPrice_ok_ids _ _ _ _ _ _ _ happly]
    | revealS sender sid cb p =>
      simp only [applyOp] at happly
      simp [opCreatedId, applyOp, happly, revealSellerPrice_ok_ids _ _ _ _ _ _ _ happly]

theorem execTrace_sessionIds (env : FHEEnv) (ops : List Op) :
    ∀ st : ContractState,
      (execTrace env st ops).1.sessionIds = st.sessionIds ++ createdIds env st ops := by
  induction ops with
  | nil => intro st; simp [execTrace, createdIds]
  | cons op ops ih =>
    intro st
    simp only [execTrace, createdIds]
    rw [ih, execOp_sessionIds, List.append_assoc]

theorem execTrace_inv (env : FHEEnv) (ops : List Op) :
    ∀ st : ContractState, Inv st → (∀ op ∈ ops, goodOp op = true) →
      Inv (execTrace env st ops).1 := by
  induction ops with
  | nil => intro st h _; simpa [execTrace] using h
  | cons op ops ih =>
    intro st h hg
    simp only [execTrace]
    exact ih _ (inv_step env st op (hg op (by simp)) h)
      (fun o ho => hg o (by simp [ho]))

/-! ### Per-session effect of one call -/

/-- On any invariant-satisfying state, one call never clears a reveal
flag or the match flag; the match flag can flip only to a state with both
reveal flags set, from one where they were not both set; and a fully
revealed session is frozen. -/
theorem session_step (env : FHEEnv) (st : ContractState) (op : Op) (sid : Nat)
    (hdef : InvDefault st) (hdeal : InvDeal st) (hsell : InvSeller st) :
    ((st.sessions sid).buyerRevealed = true →
      ((execOp env st op).1.sessions sid).buyerRevealed = true) ∧
    ((st.sessions sid).sellerRevealed = true →
      ((execOp env st op).1.sessions sid).sellerRevealed = true) ∧
    ((st.sessions sid).dealMatched = true →
      ((execOp env st op).1.sessions sid).dealMatched = true) ∧
    (((execOp env st op).1.sessions sid).dealMatched = true →
      (st.sessions sid).dealMatched = true ∨
      (((execOp env st op).1.sessions sid).buyerRevealed = true ∧
       ((execOp env st op).1.sessions sid).sellerRevealed = true ∧
       ¬((st.sessions sid).buyerRevealed = true ∧
         (st.sessions sid).sellerRevealed = true))) ∧
    ((st.sessions sid).buyerRevealed = true → (st.sessions sid).sellerRevealed = true →
      (execOp env st op).1.sessions sid = st.sessions sid) := by
  rcases execOp_cases env st op with heq |
    ⟨sender, time, extB, extS, pB, pS, pubB, pubS, hop, hex, heq⟩ |
    ⟨sender, sid0, extS, proof, pubS, hop, hts, hsel, heq⟩ |
    ⟨sender, sid0, cb, p, hop, hts, ha, hbr, hsr, heq⟩ |
    ⟨sender, sid0, cb, p, hop, hts, ha, hbr, hsr, heq⟩ |
    ⟨sender, sid0, cb, p, hop, hts, hsa, hsr, hbr, heq⟩ |
    ⟨sender, sid0, cb, p, hop, hts, hsa, hsr, hbr, heq⟩
  · rw [heq]
    exact ⟨fun h => h, fun h => h, fun h => h, fun h => Or.inl h, fun _ _ => rfl⟩
  · -- successful create
    rw [heq]
    by_cases hx : sid = env.deriveId sender time
    · have hdflt : st.sessions sid = defaultSession := by
        rw [hx]; exact hdef _ hex
      dsimp only
      rw [if_pos hx, hdflt]
      refine ⟨?_, ?_, ?_, ?_, ?_⟩ <;>
        simp [defaultSession]
    · dsimp only
      rw [if_neg hx]
      exact ⟨fun h => h, fun h => h, fun h => h, fun h => Or.inl h, fun _ _ => rfl⟩
  · -- successful join
    rw [heq]
    by_cases hx : sid = sid0
    · subst hx
      rw [setSession_sessions_self]
      refine ⟨?_, ?_, ?_, ?_, ?_⟩
      · intro h; simpa using h
      · intro h; simpa using h
      · intro h; simpa using h
      · intro h; exact Or.inl (by simpa using h)
      · intro _ hs2
        exact absurd (hsell sid hs2) (by simp [hsel])
    · rw [setSession_sessions_ne _ _ _ _ hx]
      exact ⟨fun h => h, fun h => h, fun h => h, fun h => Or.inl h, fun _ _ => rfl⟩
  · -- buyer reveals, seller not yet revealed
    rw [heq]
    by_cases hx : sid = sid0
    · subst hx
      rw [setSession_sessions_self]
      refine ⟨?_, ?_, ?_, ?_, ?_⟩
      · intro _; simp
      · intro h; simpa using h
      · intro h; simpa using h
      · intro h; exact Or.inl (by simpa using h)
      · intro hb2 _
        rw [hbr] at hb2
        exact absurd hb2 Bool.false_ne_true
    · rw [setSession_sessions_ne _ _ _ _ hx]
      exact ⟨fun h => h, fun h => h, fun h => h, fun h => Or.inl h, fun _ _ => rfl⟩
  · -- buyer reveals second: match evaluated
    rw [heq]
    by_cases hx : sid = sid0
    · subst hx
      rw [setSession_sessions_self]
      by_cases hge : (env.decodeU cb) ≥ (st.sessions sid).publicSellerPrice
      · rw [checkDeal_pos _ _ (by simpa using hge)]
        refine ⟨?_, ?_, ?_, ?_, ?_⟩
        · intro _; simp
        · intro _; simpa using hsr
        · intro _; simp
        · intro _
          refine Or.inr ⟨by simp, by simpa using hsr, ?_⟩
          rintro ⟨hb2, _⟩
          rw [hbr] at hb2
          exact absurd hb2 Bool.false_ne_true
        · intro hb2 _
          rw [hbr] at hb2
          exact absurd hb2 Bool.false_ne_true
      · rw [checkDeal_neg _ _ (by simpa using hge)]
        refine ⟨?_, ?_, ?_, ?_, ?_⟩
        · intro _; simp
        · intro _; simpa using hsr
        · intro h; simpa using h
        · intro h; exact Or.inl (by simpa using h)
        · intro hb2 _
          rw [hbr] at hb2
          exact absurd hb2 Bool.false_ne_true
    · rw [setSession_sessions_ne _ _ _ _ hx]
      exact ⟨fun h => h, fun h => h, fun h => h, fun h => Or.inl h, fun _ _ => rfl⟩
  · -- seller reveals, buyer not yet revealed
    rw [heq]
    by_cases hx : sid = sid0
    · subst hx
      rw [setSession_sessions_self]
      refine ⟨?_, ?_, ?_, ?_, ?_⟩
      · intro h; simpa using h
      · intro _; simp
      · intro h; simpa using h
      · intro h; exact Or.inl (by simpa using h)
      · intro _ hs2
        rw [hsr] at hs2
        exact absurd hs2 Bool.false_ne_true
    · rw [setSession_sessions_ne _ _ _ _ hx]
      exact ⟨fun h => h, fun h => h, fun h => h, fun h => Or.inl h, fun _ _ => rfl⟩
  · -- seller reveals second: match evaluated
    rw [heq]
    by_cases hx : sid = sid0
    · subst hx
      rw [setSession_sessions_self]
      by_cases hge : (st.sessions sid).publicBuyerPrice ≥ (env.decodeU cb)
      · rw [checkDeal_pos _ _ (by simpa using hge)]
        refine ⟨?_, ?_, ?_, ?_, ?_⟩
        · intro _; simpa using hbr
        · intro _; simp
        · intro _; simp
        · intro _
          refine Or.inr ⟨by simpa using hbr, by simp, ?_⟩
          rintro ⟨_, hs2⟩
          rw [hsr] at hs2
          exact absurd hs2 Bool.false_ne_true
        · intro _ hs2
          rw [hsr] at hs2
          exact absurd hs2 Bool.false_ne_true
      · rw [checkDeal_neg _ _ (by simpa using hge)]
        refine ⟨?_, ?_, ?_, ?_, ?_⟩
        · intro _; simpa using hbr
        · intro _; simp
        · intro h; simpa using h
        · intro h; exact Or.inl (by simpa using h)
        · intro _ hs2
          rw [hsr] at hs2
          exact absurd hs2 Bool.false_ne_true
    · rw [setSession_sessions_ne _ _ _ _ hx]
      exact ⟨fun h => h, fun h => h, fun h => h, fun h => Or.inl h, fun _ _ => rfl⟩

/-! ### Claim theorems -/

/-- Claim C2: in every reachable state, `buyerRevealed`, `sellerRevealed`
and `dealMatched` are monotone — once true, no operation makes them
false again — and `dealMatched` becomes true only on a transition after
which both reveal flags are true and before which they were not both
true; once both reveal flags are true the session no longer changes, so
the match evaluation runs exactly once, on the reveal that makes both
flags true. -/
theorem claimC2_monotone (env : FHEEnv) (st : ContractState) (op : Op) (sid : Nat)
    (hr : Reachable env st) :
    ((st.sessions sid).buyerRevealed = true →
      ((execOp env st op).1.sessions sid).buyerRevealed = true) ∧
    ((st.sessions sid).sellerRevealed = true →
      ((execOp env st op).1.sessions sid).sellerRevealed = true) ∧
    ((st.sessions sid).dealMatched = true →
      ((execOp env st op).1.sessions sid).dealMatched = true) ∧
    (((execOp env st op).1.sessions sid).dealMatched = true →
      (st.sessions sid).dealMatched = true ∨
      (((execOp env st op).1.sessions sid).buyerRevealed = true ∧
       ((execOp env st op).1.sessions sid).sellerRevealed = true ∧
       ¬((st.sessions sid).buyerRevealed = true ∧
         (st.sessions sid).sellerRevealed = true))) ∧
    ((st.sessions sid).buyerRevealed = true → (st.sessions sid).sellerRevealed = true →
      (execOp env st op).1.sessions sid = st.sessions sid) := by
  obtain ⟨_, hdef, hdeal, hsell⟩ := reachable_inv env st hr
  exact session_step env st op sid hdef hdeal hsell

def stC2w : ContractState :=
  (execOp env0 (execOp env0 (execOp env0 initState
    (Op.create 1 1 5 7 9 9 100 80)).1
    (Op.join 2 1001 7 0 80)).1
    (Op.revealS 2 1001 80 87)).1

theorem reachC2w : Reachable env0 stC2w :=
  Reachable.step (Reachable.step (Reachable.step Reachable.init (by decide))
    (by decide)) (by decide)

theorem claimC2_monotone_witness :
    (stC2w.sessions 1001).sellerRevealed = true ∧
    ((stC2w.sessions 1001).sellerRevealed = true →
      ((execOp env0 stC2w (Op.revealB 1 1001 100 105)).1.sessions 1001).sellerRevealed = true) :=
  ⟨by decide,
   (claimC2_monotone env0 stC2w (Op.revealB 1 1001 100 105) 1001 reachC2w).2.1⟩

/-- Claim C1: when the second reveal completes (for either arrival
order), `dealMatched` on the resulting state is true exactly when
`publicBuyerPrice >= publicSellerPrice` holds on the values present at
that moment, the `DealMatched` event then carries `publicSellerPrice`,
and once both flags are set no later operation changes `dealMatched`
again. -/
theorem claimC1_match (env : FHEEnv) (st : ContractState) (sid : Nat)
    (hr : Reachable env st) :
    (∀ sender cb p,
      (st.sessions sid).timestamp ≠ 0 → sender = (st.sessions sid).buyer →
      (st.sessions sid).buyerRevealed = false →
      env.checkSig (st.sessions sid).encryptedBuyerPrice cb p = true →
      (st.sessions sid).sellerRevealed = true →
      ((((execOp env st (Op.revealB sender sid cb p)).1.sessions sid).dealMatched = true ↔
         ((execOp env st (Op.revealB sender sid cb p)).1.sessions sid).publicBuyerPrice ≥
           ((execOp env st (Op.revealB sender sid cb p)).1.sessions sid).publicSellerPrice) ∧
       (Event.DealMatched sid
           ((execOp env st (Op.revealB sender sid cb p)).1.sessions sid).publicSellerPrice ∈
           (execOp env st (Op.revealB sender sid cb p)).2 ↔
         ((execOp env st (Op.revealB sender sid cb p)).1.sessions sid).publicBuyerPrice ≥
           ((execOp env st (Op.revealB sender sid cb p)).1.sessions sid).publicSellerPrice) ∧
       ((execOp env st (Op.revealB sender sid cb p)).1.sessions sid).buyerRevealed = true ∧
       ((execOp env st (Op.revealB sender sid cb p)).1.sessions sid).sellerRevealed = true)) ∧
    (∀ sender cb p,
      (st.sessions sid).timestamp ≠ 0 → sender = (st.sessions sid).seller →
      (st.sessions sid).sellerRevealed = false →
      env.checkSig (st.sessions sid).encryptedSellerPrice cb p = true →
      (st.sessions sid).buyerRevealed = true →
      ((((execOp env st (Op.revealS sender sid cb p)).1.sessions sid).dealMatched = true ↔
         ((execOp env st (Op.revealS sender sid cb p)).1.sessions sid).publicBuyerPrice ≥
           ((execOp env st (Op.revealS sender sid cb p)).1.sessions sid).publicSellerPrice) ∧
       (Event.DealMatched sid
           ((execOp env st (Op.revealS sender sid cb p)).1.sessions sid).publicSellerPrice ∈
           (execOp env st (Op.revealS sender sid cb p)).2 ↔
         ((execOp env st (Op.revealS sender sid cb p)).1.sessions sid).publicBuyerPrice ≥
           ((execOp env st (Op.revealS sender sid cb p)).1.sessions sid).publicSellerPrice) ∧
       ((execOp env st (Op.revealS sender sid cb p)).1.sessions sid).buyerRevealed = true ∧
       ((execOp env st (Op.revealS sender sid cb p)).1.sessions sid).sellerRevealed = true)) ∧
    (∀ op, (st.sessions sid).buyerRevealed = true → (st.sessions sid).sellerRevealed = true →
      ((execOp env st op).1.sessions sid).dealMatched = (st.sessions sid).dealMatched) := by
  obtain ⟨_, hdef, hdeal, hsell⟩ := reachable_inv env st hr
  refine ⟨?_, ?_, ?_⟩
  · intro sender cb p hts ha hbr hc hsr
    have hdm : (st.sessions sid).dealMatched = false := by
      rcases Bool.eq_false_or_eq_true ((st.sessions sid).dealMatched) with h' | h'
      · exact absurd (hdeal sid h').1 (by rw [hbr]; exact Bool.false_ne_true)
      · exact h'
    rw [execOp_revealB_ok_second env st sender sid cb p hts ha hbr hc hsr,
        setSession_sessions_self]
    by_cases hge : env.decodeU cb ≥ (st.sessions sid).publicSellerPrice
    · rw [checkDeal_pos _ _ (by simpa using hge)]
      refine ⟨?_, ?_, ?_, ?_⟩ <;> simp [hge, hsr]
    · rw [checkDeal_neg _ _ (by simpa using hge)]
      refine ⟨?_, ?_, ?_, ?_⟩ <;> simp [hge, hsr, hdm]
  · intro sender cb p hts ha hsr hc hbr
    have hdm : (st.sessions sid).dealMatched = false := by
      rcases Bool.eq_false_or_eq_true ((st.sessions sid).dealMatched) with h' | h'
      · exact absurd (hdeal sid h').2 (by rw [hsr]; exact Bool.false_ne_true)
      · exact h'
    rw [execOp_revealS_ok_second env st sender sid cb p hts ha hsr hc hbr,
        setSession_sessions_self]
    by_cases hge : (st.sessions sid).publicBuyerPrice ≥ env.decodeU cb
    · rw [checkDeal_pos _ _ (by simpa using hge)]
      refine ⟨?_, ?_, ?_, ?_⟩ <;> simp [hge, hbr]
    · rw [checkDeal_neg _ _ (by simpa using hge)]
      refine ⟨?_, ?_, ?_, ?_⟩ <;> simp [hge, hbr, hdm]
  · intro op hb hs
    rw [(session_step env st op sid hdef hdeal hsell).2.2.2.2 hb hs]

def stC1w : ContractState :=
  (execOp env0 (execOp env0 (execOp env0 initState
    (Op.create 1 1 5 7 9 9 100 80)).1
    (Op.join 2 1001 7 0 80)).1
    (Op.revealS 2 1001 80 87)).1

theorem reachC1w : Reachable env0 stC1w :=
  Reachable.step (Reachable.step (Reachable.step Reachable.init (by decide))
    (by decide)) (by decide)

theorem claimC1_match_witness :
    (stC1w.sessions 1001).sellerRevealed = true ∧
    (((execOp env0 stC1w (Op.revealB 1 1001 100 105)).1.sessions 1001).dealMatched = true ↔
      ((execOp env0 stC1w (Op.revealB 1 1001 100 105)).1.sessions 1001).publicBuyerPrice ≥
        ((execOp env0 stC1w (Op.revealB 1 1001 100 105)).1.sessions 1001).publicSellerPrice) :=
  ⟨by decide,
   ((claimC1_match env0 stC1w 1001 reachC1w).1 1 100 105 (by decide) (by decide)
     (by decide) (by decide) (by decide)).1⟩

/-- Claim C3: `revealBuyerPrice` checks its failure conditions in the
order NotFound, Unauthorized, AlreadyRevealed, InvalidProof; on success
it stores the verified clear value, sets the reveal flag and emits
`PriceRevealed(sessionId, buyer, clearValue)` first; `revealSellerPrice`
is symmetric; and a repeated call for the same role fails with
`AlreadyRevealed`, changing no state and emitting no event. -/
theorem claimC3_reveal_order (env : FHEEnv) (st : ContractState)
    (sid sender cb p : Nat) :
    ((st.sessions sid).timestamp = 0 →
      revealBuyerPrice env sender st sid cb p = .error .NotFound) ∧
    ((st.sessions sid).timestamp ≠ 0 → sender ≠ (st.sessions sid).buyer →
      revealBuyerPrice env sender st sid cb p = .error .Unauthorized) ∧
    ((st.sessions sid).timestamp ≠ 0 → sender = (st.sessions sid).buyer →
      (st.sessions sid).buyerRevealed = true →
      revealBuyerPrice env sender st sid cb p = .error .AlreadyRevealed ∧
      execOp env st (.revealB sender sid cb p) = (st, [])) ∧
    ((st.sessions sid).timestamp ≠ 0 → sender = (st.sessions sid).buyer →
      (st.sessions sid).buyerRevealed = false →
      env.checkSig (st.sessions sid).encryptedBuyerPrice cb p = false →
      revealBuyerPrice env sender st sid cb p = .error .InvalidProof) ∧
    ((st.sessions sid).timestamp ≠ 0 → sender = (st.sessions sid).buyer →
      (st.sessions sid).buyerRevealed = false →
      env.checkSig (st.sessions sid).encryptedBuyerPrice cb p = true →
      ((execOp env st (.revealB sender sid cb p)).1.sessions sid).publicBuyerPrice =
        env.decodeU cb ∧
      ((execOp env st (.revealB sender sid cb p)).1.sessions sid).buyerRevealed = true ∧
      (execOp env st (.revealB sender sid cb p)).2.head? =
        some (Event.PriceRevealed sid sender (env.decodeU cb))) ∧
    ((st.sessions sid).timestamp = 0 →
      revealSellerPrice env sender st sid cb p = .error .NotFound) ∧
    ((st.sessions sid).timestamp ≠ 0 → sender ≠ (st.sessions sid).seller →
      revealSellerPrice env sender st sid cb p = .error .Unauthorized) ∧
    ((st.sessions sid).timestamp ≠ 0 → sender = (st.sessions sid).seller →
      (st.sessions sid).sellerRevealed = true →
      revealSellerPrice env sender st sid cb p = .error .AlreadyRevealed ∧
      execOp env st (.revealS sender sid cb p) = (st, [])) ∧
    ((st.sessions sid).timestamp ≠ 0 → sender = (st.sessions sid).seller →
      (st.sessions sid).sellerRevealed = false →
      env.checkSig (st.sessions sid).encryptedSellerPrice cb p = false →
      revealSellerPrice env sender st sid cb p = .error .InvalidProof) ∧
    ((st.sessions sid).timestamp ≠ 0 → sender = (st.sessions sid).seller →
      (st.sessions sid).sellerRevealed = false →
      env.checkSig (st.sessions sid).encryptedSellerPrice cb p = true →
      ((execOp env st (.revealS sender sid cb p)).1.sessions sid).publicSellerPrice =
        env.decodeU cb ∧
      ((execOp env st (.revealS sender sid cb p)).1.sessions sid).sellerRevealed = true ∧
      (execOp env st (.revealS sender sid cb p)).2.head? =
        some (Event.PriceRevealed sid sender (env.decodeU cb))) := by
  refine ⟨?_, ?_, ?_, ?_, ?_, ?_, ?_, ?_, ?_, ?_⟩
  · exact fun h => revealBuyerPrice_notFound env sender st sid cb p h
  · exact fun h ha => revealBuyerPrice_unauth env sender st sid cb p h ha
  · intro h ha hrv
    have herr := revealBuyerPrice_already env sender st sid cb p h ha hrv
    exact ⟨herr, execOp_revealB_err env st sender sid cb p _ herr⟩
  · exact fun h ha hrv hc => revealBuyerPrice_badProof env sender st sid cb p h ha hrv hc
  · intro h ha hrv hc
    rcases Bool.eq_false_or_eq_true ((st.sessions sid).sellerRevealed) with ho | ho
    · rw [execOp_revealB_ok_second env st sender sid cb p h ha hrv hc ho,
          setSession_sessions_self]
      refine ⟨?_, ?_, rfl⟩
      · exact (checkDeal_fst_prices sid _).1.trans (by simp)
      · exact (checkDeal_fst_flags sid _).1.trans (by simp)
    · rw [execOp_revealB_ok_first env st sender sid cb p h ha hrv hc ho,
          setSession_sessions_self]
      exact ⟨by simp, by simp, rfl⟩
  · exact fun h => revealSellerPrice_notFound env sender st sid cb p h
  · exact fun h ha => revealSellerPrice_unauth env sender st sid cb p h ha
  · intro h ha hrv
    have herr := revealSellerPrice_already env sender st sid cb p h ha hrv
    exact ⟨herr, execOp_revealS_err env st sender sid cb p _ herr⟩
  · exact fun h ha hrv hc => revealSellerPrice_badProof env sender st sid cb p h ha hrv hc
  · intro h ha hrv hc
    rcases Bool.eq_false_or_eq_true ((st.sessions sid).buyerRevealed) with ho | ho
    · rw [execOp_revealS_ok_second env st sender sid cb p h ha hrv hc ho,
          setSession_sessions_self]
      refine ⟨?_, ?_, rfl⟩
      · exact (checkDeal_fst_prices sid _).2.trans (by simp)
      · exact (checkDeal_fst_flags sid _).2.1.trans (by simp)
    · rw [execOp_revealS_ok_first env st sender sid cb p h ha hrv hc ho,
          setSession_sessions_self]
      exact ⟨by simp, by simp, rfl⟩

def stC3w : ContractState :=
  (execOp env0 (execOp env0 (execOp env0 initState
    (Op.create 1 1 5 7 9 9 100 80)).1
    (Op.join 2 1001 7 0 80)).1
    (Op.revealB 1 1001 100 105)).1

theorem claimC3_reveal_order_witness :
    ((stC3w.sessions 1001).timestamp ≠ 0 ∧ 1 = (stC3w.sessions 1001).buyer ∧
      (stC3w.sessions 1001).buyerRevealed = true) ∧
    (revealBuyerPrice env0 1 stC3w 1001 100 105 = .error .AlreadyRevealed ∧
     execOp env0 stC3w (.revealB 1 1001 100 105) = (stC3w, [])) :=
  ⟨⟨by decide, by decide, by decide⟩,
   (claimC3_reveal_order env0 stC3w 1001 1 100 105).2.2.1 (by decide) (by decide) (by decide)⟩

/-- Claim C4: every failing call is all-or-nothing — an error leaves the
session table, the creation log and the event log unchanged — and in
particular a create whose derived id already denotes an existing session
fails with `AlreadyExists` (regardless of the ciphertext checks) with
the pre-existing session untouched and nothing appended to the log. -/
theorem claimC4_atomicity (env : FHEEnv) (st : ContractState) :
    (∀ op e, applyOp env st op = .error e → execOp env st op = (st, [])) ∧
    (∀ sender time extB extS pB pS pubB pubS,
      (st.sessions (env.deriveId sender time)).timestamp ≠ 0 →
      createSession env sender time st extB extS pB pS pubB pubS = .error .AlreadyExists ∧
      execOp env st (.create sender time extB extS pB pS pubB pubS) = (st, []) ∧
      (execOp env st (.create sender time extB extS pB pS pubB pubS)).1.sessions
          (env.deriveId sender time) = st.sessions (env.deriveId sender time) ∧
      getAllSessionIds (execOp env st
          (.create sender time extB extS pB pS pubB pubS)).1 = getAllSessionIds st) := by
  refine ⟨?_, ?_⟩
  · exact fun op e h => execOp_eq_of_error env st op e h
  · intro sender time extB extS pB pS pubB pubS hex
    have herr := createSession_exists env sender time st extB extS pB pS pubB pubS hex
    have hexec := execOp_create_err env st sender time extB extS pB pS pubB pubS _ herr
    exact ⟨herr, hexec, by rw [hexec], by rw [hexec]⟩

def stC4w : ContractState :=
  (execOp env0 initState (Op.create 1 1 5 7 9 9 100 80)).1

theorem claimC4_atomicity_witness :
    (stC4w.sessions (env0.deriveId 1 1)).timestamp ≠ 0 ∧
    (createSession env0 1 1 stC4w 5 7 9 9 2 3 = .error .AlreadyExists ∧
     execOp env0 stC4w (.create 1 1 5 7 9 9 2 3) = (stC4w, []) ∧
     (execOp env0 stC4w (.create 1 1 5 7 9 9 2 3)).1.sessions (env0.deriveId 1 1) =
       stC4w.sessions (env0.deriveId 1 1) ∧
     getAllSessionIds (execOp env0 stC4w (.create 1 1 5 7 9 9 2 3)).1 =
       getAllSessionIds stC4w) :=
  ⟨by decide,
   (claimC4_atomicity env0 stC4w).2 1 1 5 7 9 9 2 3 (by decide)⟩

/-- Claim C5 (counterexample): `createSession` takes a seller-side
ciphertext too and validates it: on a fresh id, with the buyer handle
passing the validity predicate and the seller handle failing it, the
call still fails with `InvalidEncryption` — refuting the claim that
create fails with `InvalidEncryption` exactly when the buyer handle
fails, and that no seller-side validity condition is part of create. -/
theorem claimC5_counterexample :
    createSession env0 1 1 initState 5 0 3 4 100 80 = .error .InvalidEncryption ∧
    env0.isInit (env0.fromExternal 5 3) = true ∧
    (initState.sessions (env0.deriveId 1 1)).timestamp = 0 :=
  ⟨rfl, by decide, by decide⟩

/-- Claim C5 (amended): create takes both the buyer and the seller
ciphertext handles with their ingestion proofs and ingests both; for a
call whose derived id is fresh it fails with `InvalidEncryption` exactly
when the buyer handle or the seller handle fails the validity
predicate (the buyer handle is checked first). -/
theorem claimC5_create_validity (env : FHEEnv) (st : ContractState)
    (sender time extB extS pB pS pubB pubS : Nat)
    (hfresh : (st.sessions (env.deriveId sender time)).timestamp = 0) :
    createSession env sender time st extB extS pB pS pubB pubS = .error .InvalidEncryption ↔
      (env.isInit (env.fromExternal extB pB) = false ∨
       env.isInit (env.fromExternal extS pS) = false) := by
  constructor
  · intro h
    by_contra hc
    push_neg at hc
    obtain ⟨h1, h2⟩ := hc
    rcases Bool.eq_false_or_eq_true (env.isInit (env.fromExternal extB pB)) with hbv | hbv
    · rcases Bool.eq_false_or_eq_true (env.isInit (env.fromExternal extS pS)) with hsv | hsv
      · rw [createSession_ok env sender time st extB extS pB pS pubB pubS hfresh hbv hsv] at h
        exact absurd h (by simp)
      · exact h2 hsv
    · exact h1 hbv
  · rintro (h1 | h1)
    · exact createSession_badBuyer env sender time st extB extS pB pS pubB pubS hfresh h1
    · rcases Bool.eq_false_or_eq_true (env.isInit (env.fromExternal extB pB)) with hbv | hbv
      · exact createSession_badSeller env sender time st extB extS pB pS pubB pubS hfresh hbv h1
      · exact createSession_badBuyer env sender time st extB extS pB pS pubB pubS hfresh hbv

theorem claimC5_create_validity_witness :
    (initState.sessions (env0.deriveId 1 1)).timestamp = 0 ∧
    (createSession env0 1 1 initState 5 0 3 4 100 80 = .error .InvalidEncryption ↔
      (env0.isInit (env0.fromExternal 5 3) = false ∨
       env0.isInit (env0.fromExternal 0 4) = false)) :=
  ⟨by decide,
   claimC5_create_validity env0 initState 1 1 5 0 3 4 100 80 (by decide)⟩

/-- Claim C6: join fails with `NotFound` on a missing session and with
`AlreadyJoined` when the seller slot is already bound — leaving the
state and the first bound seller untouched — and on success binds
`seller` to the requester, stores the validated handle and provisional
price, and re-emits `SessionCreated` with the seller bound. -/
theorem claimC6_join (env : FHEEnv) (st : ContractState)
    (sender sid extS proof pubS : Nat) :
    ((st.sessions sid).timestamp = 0 →
      joinSession env sender st sid extS proof pubS = .error .NotFound) ∧
    ((st.sessions sid).timestamp ≠ 0 → (st.sessions sid).seller ≠ 0 →
      joinSession env sender st sid extS proof pubS = .error .AlreadyJoined ∧
      execOp env st (.join sender sid extS proof pubS) = (st, []) ∧
      ((execOp env st (.join sender sid extS proof pubS)).1.sessions sid).seller =
        (st.sessions sid).seller) ∧
    ((st.sessions sid).timestamp ≠ 0 → (st.sessions sid).seller = 0 →
      env.isInit (env.fromExternal extS proof) = true →
      execOp env st (.join sender sid extS proof pubS) =
        (setSession st sid
          { st.sessions sid with
            seller := sender,
            encryptedSellerPrice := env.fromExternal extS proof,
            publicSellerPrice := pubS },
         [Event.SessionCreated sid (st.sessions sid).buyer sender]) ∧
      ((execOp env st (.join sender sid extS proof pubS)).1.sessions sid).seller = sender) := by
  refine ⟨?_, ?_, ?_⟩
  · exact fun h => joinSession_notFound env sender st sid extS proof pubS h
  · intro h hj
    have herr := joinSession_already env sender st sid extS proof pubS h hj
    have hexec := execOp_join_err env st sender sid extS proof pubS _ herr
    exact ⟨herr, hexec, by rw [hexec]⟩
  · intro h hj he
    have hexec := execOp_join_ok env st sender sid extS proof pubS h hj he
    refine ⟨hexec, ?_⟩
    rw [hexec, setSession_sessions_self]

def stC6w : ContractState :=
  (execOp env0 (execOp env0 initState
    (Op.create 1 1 5 7 9 9 100 80)).1
    (Op.join 2 1001 7 0 80)).1

theorem claimC6_join_witness :
    ((stC6w.sessions 1001).timestamp ≠ 0 ∧ (stC6w.sessions 1001).seller ≠ 0) ∧
    (joinSession env0 3 stC6w 1001 7 0 60 = .error .AlreadyJoined ∧
     execOp env0 stC6w (.join 3 1001 7 0 60) = (stC6w, []) ∧
     ((execOp env0 stC6w (.join 3 1001 7 0 60)).1.sessions 1001).seller =
       (stC6w.sessions 1001).seller) :=
  ⟨⟨by decide, by decide⟩,
   (claimC6_join env0 stC6w 3 1001 7 0 60).2.1 (by decide) (by decide)⟩

/-- Claim C7: after any sequence of well-formed calls from the initial
state, the creation-order log equals the list of ids committed by the
successful creates, in commit order (so its length is the number of
successful creates), it has no duplicates, and it contains exactly the
ids of the sessions with a nonzero timestamp. -/
theorem claimC7_log (env : FHEEnv) (ops : List Op)
    (hg : ∀ op ∈ ops, goodOp op = true) :
    getAllSessionIds (execTrace env initState ops).1 = createdIds env initState ops ∧
    (getAllSessionIds (execTrace env initState ops).1).Nodup ∧
    ∀ sid, sid ∈ getAllSessionIds (execTrace env initState ops).1 ↔
      ((execTrace env initState ops).1.sessions sid).timestamp ≠ 0 := by
  have h1 := execTrace_sessionIds env ops initState
  obtain ⟨⟨hnd, hmem⟩, _, _, _⟩ := execTrace_inv env ops initState inv_init hg
  refine ⟨?_, hnd, hmem⟩
  rw [getAllSessionIds, h1]
  rfl

theorem claimC7_log_witness :
    (∀ op ∈ [Op.create 1 1 5 7 9 9 100 80, Op.create 1 1 5 7 9 9 1 2,
             Op.create 1 2 5 7 9 9 3 4], goodOp op = true) ∧
    getAllSessionIds (execTrace env0 initState
        [Op.create 1 1 5 7 9 9 100 80, Op.create 1 1 5 7 9 9 1 2,
         Op.create 1 2 5 7 9 9 3 4]).1 =
      createdIds env0 initState
        [Op.create 1 1 5 7 9 9 100 80, Op.create 1 1 5 7 9 9 1 2,
         Op.create 1 2 5 7 9 9 3 4] :=
  ⟨by decide,
   (claimC7_log env0 [Op.create 1 1 5 7 9 9 100 80, Op.create 1 1 5 7 9 9 1 2,
      Op.create 1 2 5 7 9 9 3 4] (by decide)).1⟩

/-- Claim C9: in every reachable state (callers are nonzero addresses),
a seller-side reveal implies the session has been joined — `seller` is
not the zero sentinel — and on any existing un-joined session
`revealSellerPrice` from any nonzero requester fails with
`Unauthorized`. -/
theorem claimC9_seller_joined (env : FHEEnv) (st : ContractState)
    (hr : Reachable env st) :
    (∀ sid, (st.sessions sid).sellerRevealed = true → (st.sessions sid).seller ≠ 0) ∧
    (∀ sid sender cb p, (st.sessions sid).timestamp ≠ 0 →
      (st.sessions sid).seller = 0 → sender ≠ 0 →
      revealSellerPrice env sender st sid cb p = .error .Unauthorized) := by
  obtain ⟨_, _, _, hsell⟩ := reachable_inv env st hr
  refine ⟨hsell, ?_⟩
  intro sid sender cb p hts hun hs0
  exact revealSellerPrice_unauth env sender st sid cb p hts (by rw [hun]; exact hs0)

def stC9w : ContractState :=
  (execOp env0 initState (Op.create 1 1 5 7 9 9 100 80)).1

theorem reachC9w : Reachable env0 stC9w :=
  Reachable.step Reachable.init (by decide)

theorem claimC9_seller_joined_witness :
    ((stC9w.sessions 1001).timestamp ≠ 0 ∧ (stC9w.sessions 1001).seller = 0) ∧
    revealSellerPrice env0 2 stC9w 1001 80 87 = .error .Unauthorized :=
  ⟨⟨by decide, by decide⟩,
   (claimC9_seller_joined env0 stC9w reachC9w).2 1001 2 80 87 (by decide) (by decide)
     (by decide)⟩

/-- Claim C10: create stores the creator-supplied seller ciphertext and
provisional seller price in the fresh session, and a successful join
overwrites exactly `seller`, `encryptedSellerPrice` and
`publicSellerPrice` with the joiner's values, leaving every other field
of the session, all other sessions, and the creation log unchanged. -/
theorem claimC10_frame (env : FHEEnv) (st : ContractState) :
    (∀ sender time extB extS pB pS pubB pubS,
      (st.sessions (env.deriveId sender time)).timestamp = 0 →
      env.isInit (env.fromExternal extB pB) = true →
      env.isInit (env.fromExternal extS pS) = true →
      ((execOp env st (.create sender time extB extS pB pS pubB pubS)).1.sessions
          (env.deriveId sender time)) =
        { buyer := sender, seller := 0,
          encryptedBuyerPrice := env.fromExternal extB pB,
          encryptedSellerPrice := env.fromExternal extS pS,
          publicBuyerPrice := pubB, publicSellerPrice := pubS,
          buyerRevealed := false, sellerRevealed := false, dealMatched := false,
          timestamp := time }) ∧
    (∀ sender sid extS proof pubS,
      (st.sessions sid).timestamp ≠ 0 → (st.sessions sid).seller = 0 →
      env.isInit (env.fromExternal extS proof) = true →
      ((execOp env st (.join sender sid extS proof pubS)).1.sessions sid =
        { st.sessions sid with
          seller := sender,
          encryptedSellerPrice := env.fromExternal extS proof,
          publicSellerPrice := pubS } ∧
       (∀ x, x ≠ sid →
         (execOp env st (.join sender sid extS proof pubS)).1.sessions x =
           st.sessions x) ∧
       getAllSessionIds (execOp env st (.join sender sid extS proof pubS)).1 =
         getAllSessionIds st)) := by
  refine ⟨?_, ?_⟩
  · intro sender time extB extS pB pS pubB pubS hfresh hbv hsv
    rw [execOp_create_ok env st sender time extB extS pB pS pubB pubS hfresh hbv hsv]
    dsimp only
    rw [if_pos rfl]
  · intro sender sid extS proof pubS hts hun he
    have hexec := execOp_join_ok env st sender sid extS proof pubS hts hun he
    refine ⟨?_, ?_, ?_⟩
    · rw [hexec, setSession_sessions_self]
    · intro x hx
      rw [hexec, setSession_sessions_ne _ _ _ _ hx]
    · rw [hexec, getAllSessionIds, getAllSessionIds, setSession_sessionIds]

def stC10w : ContractState :=
  (execOp env0 initState (Op.create 1 1 5 7 9 9 100 80)).1

theorem claimC10_frame_witness :
    ((stC10w.sessions 1001).timestamp ≠ 0 ∧ (stC10w.sessions 1001).seller = 0) ∧
    ((execOp env0 stC10w (.join 2 1001 8 0 80)).1.sessions 1001 =
      { stC10w.sessions 1001 with
        seller := 2,
        encryptedSellerPrice := env0.fromExternal 8 0,
        publicSellerPrice := 80 } ∧
     (∀ x, x ≠ 1001 →
       (execOp env0 stC10w (.join 2 1001 8 0 80)).1.sessions x = stC10w.sessions x) ∧
     getAllSessionIds (execOp env0 stC10w (.join 2 1001 8 0 80)).1 =
       getAllSessionIds stC10w) :=
  ⟨⟨by decide, by decide⟩,
   (claimC10_frame env0 stC10w).2 2 1001 8 0 80 (by decide) (by decide) (by decide)⟩

/-- Claim C8: starting from any state whose session has neither side
revealed, revealing buyer-then-seller with clear values that verify
against the stored ciphertexts produces the same final state — hence
the same `dealMatched` — and the same `DealMatched` events (same
settlement price, or absence of both) as revealing seller-then-buyer
with the identical values. -/
theorem claimC8_commute (env : FHEEnv) (st : ContractState) (sid cb pb cs ps : Nat)
    (hts : (st.sessions sid).timestamp ≠ 0)
    (hbr : (st.sessions sid).buyerRevealed = false)
    (hsr : (st.sessions sid).sellerRevealed = false)
    (hcb : env.checkSig (st.sessions sid).encryptedBuyerPrice cb pb = true)
    (hcs : env.checkSig (st.sessions sid).encryptedSellerPrice cs ps = true) :
    (execTrace env st [Op.revealB (st.sessions sid).buyer sid cb pb,
                       Op.revealS (st.sessions sid).seller sid cs ps]).1 =
      (execTrace env st [Op.revealS (st.sessions sid).seller sid cs ps,
                         Op.revealB (st.sessions sid).buyer sid cb pb]).1 ∧
    ((execTrace env st [Op.revealB (st.sessions sid).buyer sid cb pb,
                        Op.revealS (st.sessions sid).seller sid cs ps]).2.filter
        isMatchEvent =
      (execTrace env st [Op.revealS (st.sessions sid).seller sid cs ps,
                         Op.revealB (st.sessions sid).buyer sid cb pb]).2.filter
        isMatchEvent) := by
  have e1 := execOp_revealB_ok_first env st ((st.sessions sid).buyer) sid cb pb
    hts rfl hbr hcb hsr
  have e3 := execOp_revealS_ok_first env st ((st.sessions sid).seller) sid cs ps
    hts rfl hsr hcs hbr
  have e2 := execOp_revealS_ok_second env
    (setSession st sid { st.sessions sid with
                         publicBuyerPrice := env.decodeU cb, buyerRevealed := true })
    ((st.sessions sid).seller) sid cs ps
    (by rw [setSession_sessions_self]; exact hts)
    (by rw [setSession_sessions_self])
    (by rw [setSession_sessions_self]; exact hsr)
    (by rw [setSession_sessions_self]; exact hcs)
    (by rw [setSession_sessions_self])
  have e4 := execOp_revealB_ok_second env
    (setSession st sid { st.sessions sid with
                         publicSellerPrice := env.decodeU cs, sellerRevealed := true })
    ((st.sessions sid).buyer) sid cb pb
    (by rw [setSession_sessions_self]; exact hts)
    (by rw [setSession_sessions_self])
    (by rw [setSession_sessions_self]; exact hbr)
    (by rw [setSession_sessions_self]; exact hcb)
    (by rw [setSession_sessions_self])
  simp only [execTrace, e1, e2, e3, e4, setSession_sessions_self, setSession_setSession]
  constructor
  · trivial
  · simp [isMatchEvent]

def stC8w : ContractState :=
  (execOp env0 (execOp env0 initState
    (Op.create 1 1 5 7 9 9 100 80)).1
    (Op.join 2 1001 7 0 80)).1

theorem claimC8_commute_witness :
    ((stC8w.sessions 1001).timestamp ≠ 0 ∧
     (stC8w.sessions 1001).buyerRevealed = false ∧
     (stC8w.sessions 1001).sellerRevealed = false ∧
     env0.checkSig (stC8w.sessions 1001).encryptedBuyerPrice 100 105 = true ∧
     env0.checkSig (stC8w.sessions 1001).encryptedSellerPrice 80 87 = true) ∧
    (execTrace env0 stC8w [Op.revealB (stC8w.sessions 1001).buyer 1001 100 105,
                           Op.revealS (stC8w.sessions 1001).seller 1001 80 87]).1 =
      (execTrace env0 stC8w [Op.revealS (stC8w.sessions 1001).seller 1001 80 87,
                             Op.revealB (stC8w.sessions 1001).buyer 1001 100 105]).1 :=
  ⟨⟨by decide, by decide, by decide, by decide, by decide⟩,
   (claimC8_commute env0 stC8w 1001 100 105 80 87 (by decide) (by decide) (by decide)
     (by decide) (by decide)).1⟩

end BargainFHE
